import Mathlib

/-
Verification development for the kubectl-podview repository.

The Go sources are shallowly embedded below.  Timestamps are modelled as
seconds (Nat); Go int32 values are modelled as Int with wrap-around applied
at each addition (i32add).  Go maps of annotations and resource quantities
are modelled as association lists; only key lookup and emptiness are used
by the program.  Two analyzer variants exist in the repository:
src/pkg/analyzer/analyzer.go (namespace V1 below) and the ECI-aware variant
in src/unnamed/part_000 (namespace V2 below).  The helper functions
determinePodStatus, getPendingReason, getFailedReason, getNotReadyReason,
formatAge, analyzeContainer and appendIfNotExists are textually identical
in the two variants and are embedded once.
-/

/-- Wrap an integer into the two-complement int32 range, as Go int32
arithmetic does. -/
def wrap32 (x : Int) : Int := (x + 2 ^ 31) % 2 ^ 32 - 2 ^ 31

/-- Go int32 addition (wraps on overflow). -/
def i32add (a b : Int) : Int := wrap32 (a + b)

/-- Lookup in an association list, modelling Go map indexing
m[k] with its ok flag: some value when the key is present. -/
def getAnno (annos : List (String × String)) (k : String) : Option String :=
  (annos.find? (fun p => p.1 == k)).map (fun p => p.2)

/-- sub.isPrefixOfL s tests whether sub is a prefix of s (on Char lists). -/
def prefixOfL : List Char → List Char → Bool
  | [], _ => true
  | _ :: _, [] => false
  | a :: s1, b :: s2 => a == b && prefixOfL s1 s2

/-- containsL s sub tests whether sub occurs as a contiguous sublist of s,
modelling Go strings.Contains on ASCII strings. -/
def containsL : List Char → List Char → Bool
  | [], sub => sub.isEmpty
  | s@(_ :: rest), sub => prefixOfL sub s || containsL rest sub

/-- Models Go strings.Contains. -/
def strContains (s sub : String) : Bool := containsL s.toList sub.toList

/-- ASCII lowercase of one character, as Go strings.ToLower acts on the
ASCII node names the program compares. -/
def charToLower (c : Char) : Char :=
  if 65 ≤ c.toNat ∧ c.toNat ≤ 90 then Char.ofNat (c.toNat + 32) else c

/-- Models Go strings.ToLower on ASCII strings. -/
def strToLower (s : String) : String := String.mk (s.toList.map charToLower)

/- ------------------------------------------------------------------ -/
/- Kubernetes data model (the fields of corev1 that the program reads) -/
/- ------------------------------------------------------------------ -/

/-- corev1.ContainerStateWaiting (fields read by the program). -/
structure ContainerStateWaiting where
  reason : String
deriving DecidableEq

/-- corev1.ContainerStateRunning (fields read by the program); startedAt is
a timestamp in seconds. -/
structure ContainerStateRunning where
  startedAt : Nat
deriving DecidableEq

/-- corev1.ContainerStateTerminated (fields read by the program). -/
structure ContainerStateTerminated where
  reason : String
  exitCode : Int
deriving DecidableEq

/-- corev1.ContainerState: at most one of the three states is set in
practice; the embedding keeps all three optional fields as Go does. -/
structure ContainerState where
  waiting : Option ContainerStateWaiting
  running : Option ContainerStateRunning
  terminated : Option ContainerStateTerminated
deriving DecidableEq

/-- corev1.ContainerStatus (fields read by the program). -/
structure ContainerStatus where
  name : String
  ready : Bool
  restartCount : Int
  state : ContainerState
  lastTerminationState : ContainerState
deriving DecidableEq

/-- corev1.PodCondition (fields read by the program); the type and status
are the string forms of corev1.PodConditionType and corev1.ConditionStatus. -/
structure PodCondition where
  condType : String
  condStatus : String
  message : String
  lastTransitionTime : Nat
deriving DecidableEq

/-- A probe object; the program only tests probe presence (nil or not). -/
structure Probe
deriving DecidableEq

/-- corev1.Container (fields read by the program); requests and limits
model the resource maps, of which only emptiness is inspected. -/
structure Container where
  name : String
  requests : List (String × String)
  limits : List (String × String)
  livenessProbe : Option Probe
  readinessProbe : Option Probe
deriving DecidableEq

/-- corev1.PodSpec (fields read by the program). -/
structure PodSpec where
  containers : List Container
  nodeName : String
deriving DecidableEq

/-- corev1.PodStatus (fields read by the program); phase is the string
form of corev1.PodPhase. -/
structure K8sPodStatus where
  phase : String
  reason : String
  conditions : List PodCondition
  containerStatuses : List ContainerStatus
  initContainerStatuses : List ContainerStatus
deriving DecidableEq

/-- corev1.Pod (fields read by the program); creationTimestamp is in
seconds, annos models the metadata annotations map. -/
structure Pod where
  name : String
  ns : String
  annos : List (String × String)
  creationTimestamp : Nat
  spec : PodSpec
  status : K8sPodStatus
deriving DecidableEq

/- --------------------------------------------- -/
/- analyzer package: shared types and functions  -/
/- --------------------------------------------- -/

/-- analyzer.PodStatus: the five-value status classification. -/
inductive PodStatus where
  | healthy
  | warning
  | error
  | pending
  | unknown
deriving DecidableEq

/-- analyzer.ConfigIssue: the three configuration-gap kinds. -/
inductive ConfigIssue where
  | missingRequests
  | missingLimits
  | noProbe
deriving DecidableEq

/-- analyzer.ContainerAnalysis. -/
structure ContainerAnalysis where
  name : String
  ready : Bool
  restartCount : Int
  lastTermination : String
  hasRequests : Bool
  hasLimits : Bool
  hasProbe : Bool
deriving DecidableEq

/-- analyzer.appendIfNotExists: append item unless already present. -/
def appendIfNotExists (slice : List ConfigIssue) (item : ConfigIssue) : List ConfigIssue :=
  if item ∈ slice then slice else slice ++ [item]

/-- analyzer.formatAge: format the duration from t to now (both in
seconds).  Mirrors the Go arithmetic int(d.Hours()/24), int(d.Hours())%24,
int(d.Minutes())%60, int(d.Seconds()) for a nonnegative duration. -/
def formatAge (now t : Nat) : String :=
  let duration := now - t
  let days := duration / 86400
  let hours := duration / 3600 % 24
  let minutes := duration / 60 % 60
  if days > 0 then s!"{days}d{hours}h"
  else if hours > 0 then s!"{hours}h{minutes}m"
  else if minutes > 0 then s!"{minutes}m"
  else s!"{duration}s"

/-- First loop of analyzer.getPendingReason: the message of the first
PodScheduled=False condition. -/
def unschedulableMsg : List PodCondition → Option String
  | [] => none
  | c :: rest =>
    if c.condType == "PodScheduled" && c.condStatus == "False" then
      some s!"Unschedulable: {c.message}"
    else unschedulableMsg rest

/-- Second loop of analyzer.getPendingReason: the waiting reason of the
first container status in a waiting state. -/
def firstWaitingReason : List ContainerStatus → Option String
  | [] => none
  | cs :: rest =>
    match cs.state.waiting with
    | some w => some w.reason
    | none => firstWaitingReason rest

/-- Third loop of analyzer.getPendingReason, over init container statuses. -/
def initContainerNote : List ContainerStatus → Option String
  | [] => none
  | cs :: rest =>
    match cs.state.waiting with
    | some w => some s!"Init:{w.reason}"
    | none =>
      match cs.state.running with
      | some _ => some s!"Init:{cs.name} running"
      | none => initContainerNote rest

/-- analyzer.getPendingReason. -/
def getPendingReason (pod : Pod) : String :=
  match unschedulableMsg pod.status.conditions with
  | some r => r
  | none =>
    match firstWaitingReason pod.status.containerStatuses with
    | some r => r
    | none =>
      match initContainerNote pod.status.initContainerStatuses with
      | some r => r
      | none => "Pending"

/-- Loop of analyzer.getFailedReason: first terminated container summary. -/
def firstTerminatedMsg : List ContainerStatus → Option String
  | [] => none
  | cs :: rest =>
    match cs.state.terminated with
    | some t => some s!"{t.reason} (exit: {t.exitCode})"
    | none => firstTerminatedMsg rest

/-- analyzer.getFailedReason. -/
def getFailedReason (pod : Pod) : String :=
  if pod.status.reason ≠ "" then pod.status.reason
  else (firstTerminatedMsg pod.status.containerStatuses).getD "Failed"

/-- Loop body of analyzer.getNotReadyReason: the entry contributed by one
container status (none when the container contributes nothing). -/
def notReadyEntry (cs : ContainerStatus) : Option String :=
  if !cs.ready then
    match cs.state.waiting with
    | some w =>
      if w.reason ≠ "" then some w.reason
      else if cs.state.running.isSome then some "NotReady" else none
    | none => if cs.state.running.isSome then some "NotReady" else none
  else none

/-- analyzer.getNotReadyReason. -/
def getNotReadyReason (pod : Pod) : String :=
  let reasons := pod.status.containerStatuses.filterMap notReadyEntry
  if reasons.length > 0 then String.intercalate ", " reasons
  else "Containers not ready"

/-- Last loop of analyzer.determinePodStatus: the first non-empty waiting
reason among the container statuses. -/
def findNonEmptyWaiting : List ContainerStatus → Option String
  | [] => none
  | cs :: rest =>
    match cs.state.waiting with
    | some w => if w.reason ≠ "" then some w.reason else findNonEmptyWaiting rest
    | none => findNonEmptyWaiting rest

/-- analyzer.determinePodStatus: the Go switch over the phase followed by
the readiness, restart-count and waiting-reason rules. -/
def determinePodStatus (pod : Pod) (readyCount totalCount : Nat) (restarts : Int) :
    PodStatus × String :=
  if pod.status.phase = "Pending" then (.pending, getPendingReason pod)
  else if pod.status.phase = "Failed" then (.error, getFailedReason pod)
  else if pod.status.phase = "Unknown" then (.unknown, "Pod status unknown")
  else if readyCount < totalCount then (.warning, getNotReadyReason pod)
  else if restarts > 10 then (.warning, s!"High restart count: {restarts}")
  else
    match findNonEmptyWaiting pod.status.containerStatuses with
    | some r => (.warning, r)
    | none => (.healthy, "")

/-- analyzer.analyzeContainer (the unused index parameter is omitted). -/
def analyzeContainer (c : Container) (pod : Pod) (checkConfig : Bool) : ContainerAnalysis :=
  let base : ContainerAnalysis :=
    { name := c.name, ready := false, restartCount := 0, lastTermination := ""
      hasRequests := false, hasLimits := false, hasProbe := false }
  let withStatus :=
    match pod.status.containerStatuses.find? (fun cs => cs.name == c.name) with
    | some cs =>
      { base with
        ready := cs.ready
        restartCount := cs.restartCount
        lastTermination :=
          match cs.lastTerminationState.terminated with
          | some t => s!"{t.reason} (exit: {t.exitCode})"
          | none => "" }
    | none => base
  if checkConfig then
    { withStatus with
      hasRequests := !c.requests.isEmpty
      hasLimits := !c.limits.isEmpty
      hasProbe := c.livenessProbe.isSome || c.readinessProbe.isSome }
  else withStatus

/-- State threaded by the container loop of analyzeSinglePod. -/
structure LoopState where
  info : List ContainerAnalysis
  readyCount : Nat
  totalRestarts : Int
  issues : List ConfigIssue
deriving DecidableEq

/-- One iteration of the container loop of analyzeSinglePod. -/
def containerStep (pod : Pod) (checkConfig : Bool) (st : LoopState) (c : Container) :
    LoopState :=
  let ca := analyzeContainer c pod checkConfig
  let st :=
    { st with
      info := st.info ++ [ca]
      readyCount := if ca.ready then st.readyCount + 1 else st.readyCount
      totalRestarts := i32add st.totalRestarts ca.restartCount }
  if checkConfig then
    let issues := if !ca.hasRequests then appendIfNotExists st.issues .missingRequests
                  else st.issues
    let issues := if !ca.hasLimits then appendIfNotExists issues .missingLimits
                  else issues
    let issues := if !ca.hasProbe then appendIfNotExists issues .noProbe
                  else issues
    { st with issues := issues }
  else st

/- ------------------------------------------------------------- -/
/- V1: the analyzer of src/pkg/analyzer/analyzer.go              -/
/- ------------------------------------------------------------- -/

namespace V1

/-- analyzer.PodAnalysis of src/pkg/analyzer/analyzer.go. -/
structure PodAnalysis where
  Name : String
  Namespace : String
  Status : PodStatus
  Phase : String
  Ready : String
  Restarts : Int
  Age : String
  Reason : String
  ConfigIssues : List ConfigIssue
  ContainerInfo : List ContainerAnalysis
deriving DecidableEq

/-- analyzer.AnalysisResult of src/pkg/analyzer/analyzer.go. -/
structure AnalysisResult where
  Pods : List PodAnalysis
  TotalPods : Nat
  HealthyPods : Nat
  WarningPods : Nat
  ErrorPods : Nat
  PendingPods : Nat
  TotalRestarts : Int
  ConfigIssueCount : Nat
deriving DecidableEq

/-- analyzer.AnalysisResult.HasIssues. -/
def HasIssues (r : AnalysisResult) : Bool :=
  decide (r.ErrorPods > 0) || decide (r.WarningPods > 0) || decide (r.ConfigIssueCount > 0)

/-- analyzer.analyzeSinglePod of src/pkg/analyzer/analyzer.go; now is the
wall-clock instant (in seconds) read by the formatAge call. -/
def analyzeSinglePod (now : Nat) (pod : Pod) (checkConfig : Bool) : PodAnalysis :=
  let totalCount := pod.spec.containers.length
  let st := pod.spec.containers.foldl (containerStep pod checkConfig)
    { info := [], readyCount := 0, totalRestarts := 0, issues := [] }
  let sr := determinePodStatus pod st.readyCount totalCount st.totalRestarts
  { Name := pod.name
    Namespace := pod.ns
    Status := sr.1
    Phase := pod.status.phase
    Ready := s!"{st.readyCount}/{totalCount}"
    Restarts := st.totalRestarts
    Age := formatAge now pod.creationTimestamp
    Reason := sr.2
    ConfigIssues := st.issues
    ContainerInfo := st.info }

/-- Loop body of analyzer.AnalyzePods: fold one analysed pod into the
running totals. -/
def analyzeStep (now : Nat) (checkConfig : Bool) (result : AnalysisResult) (pod : Pod) :
    AnalysisResult :=
  let analysis := analyzeSinglePod now pod checkConfig
  let result :=
    { result with
      Pods := result.Pods ++ [analysis]
      TotalRestarts := i32add result.TotalRestarts analysis.Restarts }
  let result :=
    match analysis.Status with
    | .healthy => { result with HealthyPods := result.HealthyPods + 1 }
    | .warning => { result with WarningPods := result.WarningPods + 1 }
    | .error => { result with ErrorPods := result.ErrorPods + 1 }
    | .pending => { result with PendingPods := result.PendingPods + 1 }
    | .unknown => result
  { result with ConfigIssueCount := result.ConfigIssueCount + analysis.ConfigIssues.length }

/-- analyzer.AnalyzePods of src/pkg/analyzer/analyzer.go. -/
def AnalyzePods (now : Nat) (pods : List Pod) (checkConfig : Bool) : AnalysisResult :=
  pods.foldl (analyzeStep now checkConfig)
    { Pods := [], TotalPods := pods.length, HealthyPods := 0, WarningPods := 0
      ErrorPods := 0, PendingPods := 0, TotalRestarts := 0, ConfigIssueCount := 0 }

end V1

/- ------------------------------------------------------------- -/
/- V2: the ECI-aware analyzer of src/unnamed/part_000            -/
/- ------------------------------------------------------------- -/

namespace V2

/-- ECIPodAnnotation of src/unnamed/part_000: the authoritative
instance-id key. -/
def eciIdKey : String := "k8s.aliyun.com/eci-instance-id"

/-- ECINodeNamePrefix of src/unnamed/part_000. -/
def eciNodePrefix : String := "virtual-kubelet"

/-- The auxiliary ECI keys checked by the third method of detectECI. -/
def eciAuxKeys : List String :=
  ["k8s.aliyun.com/eci-instance-spec", "k8s.aliyun.com/eci-use-specs",
   "alibabacloud.com/eci"]

/-- Methods 2 and 3 of detectECI: node-name token then auxiliary keys. -/
def detectECIRest (pod : Pod) : Bool × String :=
  if strContains (strToLower pod.spec.nodeName) eciNodePrefix then (true, "")
  else if eciAuxKeys.any (fun k => (getAnno pod.annos k).isSome) then (true, "")
  else (false, "")

/-- analyzer.detectECI of src/unnamed/part_000: instance-id key first
(only a non-empty value counts and captures the id), then the node-name
token, then the auxiliary keys. -/
def detectECI (pod : Pod) : Bool × String :=
  match getAnno pod.annos eciIdKey with
  | some eciId => if eciId ≠ "" then (true, eciId) else detectECIRest pod
  | none => detectECIRest pod

/-- Loop of calculateRunningTime: the earliest running-start time. -/
def earliestRunningStart : List ContainerStatus → Option Nat
  | [] => none
  | cs :: rest =>
    let acc := earliestRunningStart rest
    match cs.state.running with
    | some r =>
      match acc with
      | none => some r.startedAt
      | some e => if r.startedAt < e then some r.startedAt else some e
    | none => acc

/-- Second loop of calculateRunningTime: the transition time of the first
Ready=True condition. -/
def readyTransitionTime : List PodCondition → Option Nat
  | [] => none
  | c :: rest =>
    if c.condType == "Ready" && c.condStatus == "True" then some c.lastTransitionTime
    else readyTransitionTime rest

/-- analyzer.calculateRunningTime of src/unnamed/part_000. -/
def calculateRunningTime (now : Nat) (pod : Pod) : String :=
  if pod.status.phase ≠ "Running" then "-"
  else
    match earliestRunningStart pod.status.containerStatuses with
    | some e => formatAge now e
    | none =>
      match readyTransitionTime pod.status.conditions with
      | some t => formatAge now t
      | none => formatAge now pod.creationTimestamp

/-- analyzer.PodAnalysis of src/unnamed/part_000. -/
structure PodAnalysis where
  Name : String
  Namespace : String
  Status : PodStatus
  Phase : String
  Ready : String
  Restarts : Int
  Age : String
  RunningTime : String
  Reason : String
  ConfigIssues : List ConfigIssue
  ContainerInfo : List ContainerAnalysis
  IsECI : Bool
  ECIInstanceID : String
  NodeName : String
deriving DecidableEq

/-- analyzer.AnalysisResult of src/unnamed/part_000. -/
structure AnalysisResult where
  Pods : List PodAnalysis
  TotalPods : Nat
  HealthyPods : Nat
  WarningPods : Nat
  ErrorPods : Nat
  PendingPods : Nat
  TotalRestarts : Int
  ConfigIssueCount : Nat
  ECIPodCount : Nat
deriving DecidableEq

/-- analyzer.AnalysisResult.HasIssues of src/unnamed/part_000. -/
def HasIssues (r : AnalysisResult) : Bool :=
  decide (r.ErrorPods > 0) || decide (r.WarningPods > 0) || decide (r.ConfigIssueCount > 0)

/-- analyzer.analyzeSinglePod of src/unnamed/part_000. -/
def analyzeSinglePod (now : Nat) (pod : Pod) (checkConfig : Bool) : PodAnalysis :=
  let eci := detectECI pod
  let totalCount := pod.spec.containers.length
  let st := pod.spec.containers.foldl (containerStep pod checkConfig)
    { info := [], readyCount := 0, totalRestarts := 0, issues := [] }
  let sr := determinePodStatus pod st.readyCount totalCount st.totalRestarts
  { Name := pod.name
    Namespace := pod.ns
    Status := sr.1
    Phase := pod.status.phase
    Ready := s!"{st.readyCount}/{totalCount}"
    Restarts := st.totalRestarts
    Age := formatAge now pod.creationTimestamp
    RunningTime := calculateRunningTime now pod
    Reason := sr.2
    ConfigIssues := st.issues
    ContainerInfo := st.info
    IsECI := eci.1
    ECIInstanceID := eci.2
    NodeName := pod.spec.nodeName }

/-- Loop body of AnalyzePods of src/unnamed/part_000. -/
def analyzeStep (now : Nat) (checkConfig : Bool) (result : AnalysisResult) (pod : Pod) :
    AnalysisResult :=
  let analysis := analyzeSinglePod now pod checkConfig
  let result :=
    { result with
      Pods := result.Pods ++ [analysis]
      TotalRestarts := i32add result.TotalRestarts analysis.Restarts
      ECIPodCount := if analysis.IsECI then result.ECIPodCount + 1 else result.ECIPodCount }
  let result :=
    match analysis.Status with
    | .healthy => { result with HealthyPods := result.HealthyPods + 1 }
    | .warning => { result with WarningPods := result.WarningPods + 1 }
    | .error => { result with ErrorPods := result.ErrorPods + 1 }
    | .pending => { result with PendingPods := result.PendingPods + 1 }
    | .unknown => result
  { result with ConfigIssueCount := result.ConfigIssueCount + analysis.ConfigIssues.length }

/-- analyzer.AnalyzePods of src/unnamed/part_000. -/
def AnalyzePods (now : Nat) (pods : List Pod) (checkConfig : Bool) : AnalysisResult :=
  pods.foldl (analyzeStep now checkConfig)
    { Pods := [], TotalPods := pods.length, HealthyPods := 0, WarningPods := 0
      ErrorPods := 0, PendingPods := 0, TotalRestarts := 0, ConfigIssueCount := 0
      ECIPodCount := 0 }

end V2

/- ------------------------------------------------------------- -/
/- Printer: src/pkg/printer/printer.go                           -/
/- ------------------------------------------------------------- -/

/-- One printed unit of PrintPodTable.  The text formatting (colours,
column widths, truncation) is abstracted away; what a line stands for is
kept: the all-healthy message, the header and separator lines, one row
per displayed pod, and one detail line per configuration issue. -/
inductive OutLine where
  | healthyMsg
  | header
  | sep
  | row (pod : V2.PodAnalysis)
  | issueDetail (issue : ConfigIssue)
  | blank
deriving DecidableEq

/-- printer.PrintPodTable: filter the pods to show, print the all-healthy
message when none qualifies, otherwise header, separator, one row per pod
(each followed by its configuration-issue detail lines) and a final blank
line.  The showNamespace flag only affects the column layout, which the
line model abstracts. -/
def printPodTable (result : V2.AnalysisResult) (showAll : Bool) (_showNamespace : Bool) :
    List OutLine :=
  let podsToShow := result.Pods.filter
    (fun pod => showAll || !(pod.Status == .healthy) || decide (pod.ConfigIssues.length > 0))
  if podsToShow.length = 0 then [.healthyMsg, .blank]
  else
    [.header, .sep]
      ++ podsToShow.flatMap (fun pod => .row pod :: pod.ConfigIssues.map .issueDetail)
      ++ [.blank]

/- ------------------------------------------------------------- -/
/- Claim-side definitions (written from the wording of the spec) -/
/- ------------------------------------------------------------- -/

/-- Modelled from the spec wording of the age-formatting rule, without the
zero-unit clause: render days-hours when at least one day, else
hours-minutes when at least one hour, else minutes, else seconds. -/
def formatAgeClaim (d : Nat) : String :=
  if d ≥ 86400 then s!"{d / 86400}d{d / 3600 % 24}h"
  else if d ≥ 3600 then s!"{d / 3600}h{d / 60 % 60}m"
  else if d ≥ 60 then s!"{d / 60}m"
  else s!"{d}s"

/-- First-seen-order deduplication, written from the spec wording: keep
the first occurrence of each element, dropping later repeats. -/
def dedupFS : List ConfigIssue → List ConfigIssue
  | [] => []
  | x :: xs => x :: dedupFS (xs.filter (fun y => !(y == x)))
termination_by l => l.length
decreasing_by
  simp only [List.length_cons]
  exact Nat.lt_succ_of_le (List.length_filter_le _ _)

/-- The configuration gaps one container contributes, in the order the
container loop checks them (requests, limits, probe). -/
def containerGaps (pod : Pod) (c : Container) : List ConfigIssue :=
  let ca := analyzeContainer c pod true
  (if !ca.hasRequests then [ConfigIssue.missingRequests] else [])
    ++ (if !ca.hasLimits then [ConfigIssue.missingLimits] else [])
    ++ (if !ca.hasProbe then [ConfigIssue.noProbe] else [])

/-- Modelled from the wording of claim C6: each not-ready container
contributes its waiting reason when non-empty, and literally NotReady
otherwise. -/
def claimC6Entry (cs : ContainerStatus) : Option String :=
  if cs.ready then none
  else some (match cs.state.waiting with
    | some w => if w.reason ≠ "" then w.reason else "NotReady"
    | none => "NotReady")

/-- The not-ready reason predicted by the wording of claim C6. -/
def claimC6Reason (pod : Pod) : String :=
  let l := pod.status.containerStatuses.filterMap claimC6Entry
  if l = [] then "Containers not ready" else String.intercalate ", " l

/-- Amended claim C6 wording: a not-ready container contributes its
waiting reason when waiting with a non-empty reason, else NotReady when it
is currently running, and nothing otherwise. -/
def amendedC6Entry (cs : ContainerStatus) : Option String :=
  if cs.ready then none
  else
    match cs.state.waiting with
    | some w =>
      if w.reason ≠ "" then some w.reason
      else if cs.state.running.isSome then some "NotReady" else none
    | none => if cs.state.running.isSome then some "NotReady" else none

/-- The not-ready reason under the amended wording of claim C6. -/
def amendedC6Reason (pod : Pod) : String :=
  let l := pod.status.containerStatuses.filterMap amendedC6Entry
  if l = [] then "Containers not ready" else String.intercalate ", " l

/-- The readiness, restart-count and waiting-reason rules of the spec,
i.e. the rules the classifier may consult only when the phase is none of
Pending, Failed and Unknown. -/
def laterRulesClaim (pod : Pod) (readyCount totalCount : Nat) (restarts : Int) :
    PodStatus × String :=
  if readyCount < totalCount then (.warning, getNotReadyReason pod)
  else if restarts > 10 then (.warning, s!"High restart count: {restarts}")
  else
    match findNonEmptyWaiting pod.status.containerStatuses with
    | some r => (.warning, r)
    | none => (.healthy, "")

/- ------------------------------------------------------------- -/
/- Concrete inputs used by witnesses and counterexamples         -/
/- ------------------------------------------------------------- -/

/-- An empty container state. -/
def stNone : ContainerState := { waiting := none, running := none, terminated := none }

/-- A ready container status with the given restart count. -/
def csReady (n : String) (rc : Int) : ContainerStatus :=
  { name := n, ready := true, restartCount := rc, state := stNone
    lastTerminationState := stNone }

/-- A bare container with no resources and no probes. -/
def cBare (n : String) : Container :=
  { name := n, requests := [], limits := [], livenessProbe := none, readinessProbe := none }

/-- A healthy running pod: one ready container, no restarts. -/
def podHealthyEx (nm : String) : Pod :=
  { name := nm, ns := "default", annos := [], creationTimestamp := 0
    spec := { containers := [cBare "c"], nodeName := "n1" }
    status := { phase := "Running", reason := "", conditions := []
                containerStatuses := [csReady "c" 0], initContainerStatuses := [] } }

/-- A running pod whose single ready container restarted 11 times. -/
def podWarningEx : Pod :=
  { name := "w1", ns := "default", annos := [], creationTimestamp := 0
    spec := { containers := [cBare "c"], nodeName := "n1" }
    status := { phase := "Running", reason := "", conditions := []
                containerStatuses := [csReady "c" 11], initContainerStatuses := [] } }

/-- A pending pod with no container statuses. -/
def podPendingEx : Pod :=
  { name := "p1", ns := "default", annos := [], creationTimestamp := 0
    spec := { containers := [cBare "c"], nodeName := "n1" }
    status := { phase := "Pending", reason := "", conditions := []
                containerStatuses := [], initContainerStatuses := [] } }

/-- A pod whose phase is Unknown. -/
def podUnknownEx : Pod :=
  { name := "u1", ns := "default", annos := [], creationTimestamp := 0
    spec := { containers := [cBare "c"], nodeName := "n1" }
    status := { phase := "Unknown", reason := "", conditions := []
                containerStatuses := [csReady "c" 0], initContainerStatuses := [] } }

/-- The aggregator example of the spec: two healthy pods, one warning
pod, one pending pod. -/
def examplePods : List Pod :=
  [podHealthyEx "h1", podHealthyEx "h2", podWarningEx, podPendingEx]

/-- A running pod with one not-ready container that is neither waiting
nor running (its current state is terminated). -/
def podC6cex : Pod :=
  { name := "t1", ns := "default", annos := [], creationTimestamp := 0
    spec := { containers := [cBare "c"], nodeName := "n1" }
    status := { phase := "Running", reason := "", conditions := []
                containerStatuses :=
                  [{ name := "c", ready := false, restartCount := 0
                     state := { waiting := none, running := none
                                terminated := some { reason := "Completed", exitCode := 0 } }
                     lastTerminationState := stNone }]
                initContainerStatuses := [] } }

/-- The two-container pod of claim C4: the first container misses only
requests, the second misses only limits, both define a probe. -/
def podC4ex : Pod :=
  { name := "cfg", ns := "default", annos := [], creationTimestamp := 0
    spec :=
      { containers :=
          [{ name := "c1", requests := [], limits := [("cpu", "1")]
             livenessProbe := some {}, readinessProbe := none },
           { name := "c2", requests := [("cpu", "1")], limits := []
             livenessProbe := none, readinessProbe := some {} }]
        nodeName := "n1" }
    status := { phase := "Running", reason := "", conditions := []
                containerStatuses := [csReady "c1" 0, csReady "c2" 0]
                initContainerStatuses := [] } }

/-- A pod whose instance-id key is present with an empty value, whose
node name lacks the virtual-node token, and which has no auxiliary key. -/
def podECIempty : Pod :=
  { name := "e0", ns := "default", annos := [(V2.eciIdKey, "")], creationTimestamp := 0
    spec := { containers := [], nodeName := "node-1" }
    status := { phase := "Running", reason := "", conditions := []
                containerStatuses := [], initContainerStatuses := [] } }

/-- A pod scheduled onto the node virtual-kubelet-eastus-1. -/
def podECInode : Pod :=
  { name := "e1", ns := "default", annos := [], creationTimestamp := 0
    spec := { containers := [], nodeName := "virtual-kubelet-eastus-1" }
    status := { phase := "Running", reason := "", conditions := []
                containerStatuses := [], initContainerStatuses := [] } }

/-- A pod carrying a non-empty instance-id value. -/
def podECIid : Pod :=
  { name := "e2", ns := "default", annos := [(V2.eciIdKey, "eci-123")], creationTimestamp := 0
    spec := { containers := [], nodeName := "node-1" }
    status := { phase := "Running", reason := "", conditions := []
                containerStatuses := [], initContainerStatuses := [] } }

/- ------------------------------------------------------------- -/
/- Shared lemmas                                                 -/
/- ------------------------------------------------------------- -/

/-- When no container status carries a non-empty waiting reason, the
waiting-reason scan finds nothing. -/
lemma findNonEmptyWaiting_eq_none (l : List ContainerStatus)
    (h : ∀ cs ∈ l, ∀ w, cs.state.waiting = some w → w.reason = "") :
    findNonEmptyWaiting l = none := by
  induction l with
  | nil => rfl
  | cons cs rest ih =>
    have hrest := fun c hc => h c (List.mem_cons_of_mem _ hc)
    cases hw : cs.state.waiting with
    | none => simpa [findNonEmptyWaiting, hw] using ih hrest
    | some w =>
      have hr : w.reason = "" := h cs (List.mem_cons_self _ _) w hw
      simp [findNonEmptyWaiting, hw, hr, ih hrest]

/- ------------------------------------------------------------- -/
/- Claim C1                                                      -/
/- ------------------------------------------------------------- -/

/-- C1: the pod-status classifier evaluates its rules in fixed priority
order: phase Pending gives status Pending regardless of restart count or
readiness, else phase Failed gives Error, else phase Unknown gives
Unknown with reason Pod status unknown, and only otherwise are the
readiness, restart-count and waiting-reason rules considered. -/
theorem C1_phase_priority (pod : Pod) (rc tc : Nat) (rs : Int) :
    (pod.status.phase = "Pending" → (determinePodStatus pod rc tc rs).1 = .pending)
    ∧ (pod.status.phase = "Failed" → (determinePodStatus pod rc tc rs).1 = .error)
    ∧ (pod.status.phase = "Unknown" →
        determinePodStatus pod rc tc rs = (.unknown, "Pod status unknown"))
    ∧ (pod.status.phase ≠ "Pending" → pod.status.phase ≠ "Failed" →
        pod.status.phase ≠ "Unknown" →
        determinePodStatus pod rc tc rs = laterRulesClaim pod rc tc rs) := by
  refine ⟨fun h => ?_, fun h => ?_, fun h => ?_, fun h1 h2 h3 => ?_⟩
  · simp [determinePodStatus, h]
  · simp +decide [determinePodStatus, h]
  · simp +decide [determinePodStatus, h]
  · simp [determinePodStatus, laterRulesClaim, h1, h2, h3]

/-- C1 witness: a concrete Pending pod with high restarts and nothing
ready is classified Pending; a concrete Unknown-phase pod gets the fixed
reason. -/
theorem C1_phase_priority_witness :
    (determinePodStatus podPendingEx 0 1 99).1 = .pending
    ∧ determinePodStatus podUnknownEx 1 1 0 = (.unknown, "Pod status unknown") :=
  ⟨(C1_phase_priority podPendingEx 0 1 99).1 rfl,
   (C1_phase_priority podUnknownEx 1 1 0).2.2.1 rfl⟩

/- ------------------------------------------------------------- -/
/- Claim C2                                                      -/
/- ------------------------------------------------------------- -/

/-- C2: the restart-count rule is strictly-greater-than 10: with a phase
other than Pending, Failed and Unknown and all containers ready, total
restarts 11 give Warning with reason High restart count: 11, while total
restarts 10 with no non-empty waiting reason give Healthy with empty
reason. -/
theorem C2_restart_threshold (pod : Pod) (rc tc : Nat)
    (h1 : pod.status.phase ≠ "Pending") (h2 : pod.status.phase ≠ "Failed")
    (h3 : pod.status.phase ≠ "Unknown") (hready : rc = tc) :
    determinePodStatus pod rc tc 11 = (.warning, "High restart count: 11")
    ∧ ((∀ cs ∈ pod.status.containerStatuses, ∀ w, cs.state.waiting = some w → w.reason = "") →
        determinePodStatus pod rc tc 10 = (.healthy, "")) := by
  subst hready
  constructor
  · simp +decide [determinePodStatus, h1, h2, h3]
  · intro hw
    simp +decide [determinePodStatus, h1, h2, h3, findNonEmptyWaiting_eq_none _ hw]

/-- C2 witness: a concrete running pod with one ready container: restarts
11 give the warning, restarts 10 give Healthy. -/
theorem C2_restart_threshold_witness :
    determinePodStatus (podHealthyEx "h1") 1 1 11 = (.warning, "High restart count: 11")
    ∧ determinePodStatus (podHealthyEx "h1") 1 1 10 = (.healthy, "") := by
  have h := C2_restart_threshold (podHealthyEx "h1") 1 1 (by decide) (by decide) (by decide) rfl
  exact ⟨h.1, h.2 (by decide)⟩

/- ------------------------------------------------------------- -/
/- Claim C3                                                      -/
/- ------------------------------------------------------------- -/

/-- C3 counterexample: at an elapsed duration of exactly one day the
formatter renders 1d0h, whose second component 0h is a zero unit, so the
formatter does not always render two non-zero units. -/
theorem C3_formatAge_cex :
    formatAge 86400 0 = "1d0h" ∧ strContains "1d0h" "0h" = true :=
  ⟨rfl, rfl⟩

/-- C3 (amended): the formatter renders days-hours when the elapsed
duration is at least one day, else hours-minutes when at least one hour,
else minutes, else seconds, never more than two components; the second
component may be a zero unit.  Ninety minutes render 1h30m, twenty-five
hours render 1d1h, forty-five seconds render 45s. -/
theorem C3_formatAge_rule :
    (∀ now t, formatAge now t = formatAgeClaim (now - t))
    ∧ formatAge 5400 0 = "1h30m" ∧ formatAge 90000 0 = "1d1h" ∧ formatAge 45 0 = "45s" := by
  refine ⟨fun now t => ?_, rfl, rfl, rfl⟩
  simp only [formatAge, formatAgeClaim]
  split_ifs <;>
    first
      | rfl
      | omega
      | rw [Nat.mod_eq_of_lt (show (now - t) / 3600 < 24 by omega)]
      | rw [Nat.mod_eq_of_lt (show (now - t) / 60 < 60 by omega)]

/- ------------------------------------------------------------- -/
/- Claim C6                                                      -/
/- ------------------------------------------------------------- -/

/-- The loop body of getNotReadyReason agrees with the amended wording. -/
lemma notReadyEntry_eq_amended (cs : ContainerStatus) :
    notReadyEntry cs = amendedC6Entry cs := by
  unfold notReadyEntry amendedC6Entry
  cases hr : cs.ready <;> simp

/-- getNotReadyReason computes the amended not-ready reason. -/
lemma getNotReadyReason_eq_amended (pod : Pod) :
    getNotReadyReason pod = amendedC6Reason pod := by
  have hfe : notReadyEntry = amendedC6Entry := funext notReadyEntry_eq_amended
  unfold getNotReadyReason amendedC6Reason
  rw [hfe]
  cases pod.status.containerStatuses.filterMap amendedC6Entry <;> simp

/-- C6 counterexample: a running pod with one not-ready container whose
current state is terminated (neither waiting nor running).  The claim
predicts the comma-joined list NotReady, the code returns the fallback
Containers not ready. -/
theorem C6_notready_cex :
    (V1.analyzeSinglePod 0 podC6cex false).Status = .warning
    ∧ (V1.analyzeSinglePod 0 podC6cex false).Reason = "Containers not ready"
    ∧ claimC6Reason podC6cex = "NotReady"
    ∧ ("Containers not ready" : String) ≠ "NotReady" := by
  refine ⟨rfl, rfl, rfl, by decide⟩

/-- C6 (amended): for a pod with phase Running or Succeeded and fewer
ready containers than total containers, the status is Warning and the
reason joins, for each not-ready container, its waiting reason when
non-empty, else NotReady when the container is currently running, and
nothing otherwise; when that list is empty the reason is the fallback
Containers not ready. -/
theorem C6_notready_amended (pod : Pod) (rc tc : Nat) (rs : Int)
    (hphase : pod.status.phase = "Running" ∨ pod.status.phase = "Succeeded")
    (hlt : rc < tc) :
    determinePodStatus pod rc tc rs = (.warning, amendedC6Reason pod) := by
  have h1 : pod.status.phase ≠ "Pending" := by
    rcases hphase with h | h <;> rw [h] <;> decide
  have h2 : pod.status.phase ≠ "Failed" := by
    rcases hphase with h | h <;> rw [h] <;> decide
  have h3 : pod.status.phase ≠ "Unknown" := by
    rcases hphase with h | h <;> rw [h] <;> decide
  simp [determinePodStatus, h1, h2, h3, hlt, getNotReadyReason_eq_amended]

/-- C6 witness: the amended rule evaluated on the terminated-container
pod: Warning with the fallback reason. -/
theorem C6_notready_amended_witness :
    determinePodStatus podC6cex 0 1 0 = (.warning, amendedC6Reason podC6cex) :=
  C6_notready_amended podC6cex 0 1 0 (Or.inl rfl) (by decide)

/- ------------------------------------------------------------- -/
/- Claim C8                                                      -/
/- ------------------------------------------------------------- -/

/-- C8: single-pod classification is deterministic and idempotent: two
runs on the same snapshot with the same configuration flag and the same
explicit current time yield the same PodAnalysis, identical in every
field; nothing beyond the snapshot, the flag and the time enters. -/
theorem C8_deterministic (pod : Pod) (cc : Bool) (now1 now2 : Nat) (h : now1 = now2) :
    V1.analyzeSinglePod now1 pod cc = V1.analyzeSinglePod now2 pod cc
    ∧ (V1.analyzeSinglePod now1 pod cc).Name = (V1.analyzeSinglePod now2 pod cc).Name
    ∧ (V1.analyzeSinglePod now1 pod cc).Namespace = (V1.analyzeSinglePod now2 pod cc).Namespace
    ∧ (V1.analyzeSinglePod now1 pod cc).Status = (V1.analyzeSinglePod now2 pod cc).Status
    ∧ (V1.analyzeSinglePod now1 pod cc).Phase = (V1.analyzeSinglePod now2 pod cc).Phase
    ∧ (V1.analyzeSinglePod now1 pod cc).Ready = (V1.analyzeSinglePod now2 pod cc).Ready
    ∧ (V1.analyzeSinglePod now1 pod cc).Restarts = (V1.analyzeSinglePod now2 pod cc).Restarts
    ∧ (V1.analyzeSinglePod now1 pod cc).Age = (V1.analyzeSinglePod now2 pod cc).Age
    ∧ (V1.analyzeSinglePod now1 pod cc).Reason = (V1.analyzeSinglePod now2 pod cc).Reason
    ∧ (V1.analyzeSinglePod now1 pod cc).ConfigIssues
        = (V1.analyzeSinglePod now2 pod cc).ConfigIssues
    ∧ (V1.analyzeSinglePod now1 pod cc).ContainerInfo
        = (V1.analyzeSinglePod now2 pod cc).ContainerInfo := by
  subst h
  exact ⟨rfl, rfl, rfl, rfl, rfl, rfl, rfl, rfl, rfl, rfl, rfl⟩

/-- C8 witness: two runs on a concrete healthy pod at the same instant
coincide. -/
theorem C8_deterministic_witness :
    V1.analyzeSinglePod 7 (podHealthyEx "h1") true = V1.analyzeSinglePod 7 (podHealthyEx "h1") true :=
  (C8_deterministic (podHealthyEx "h1") true 7 7 rfl).1

/- ------------------------------------------------------------- -/
/- Claim C5                                                      -/
/- ------------------------------------------------------------- -/

/-- The fallback detection (node token, then auxiliary keys) flags
exactly when one of the two checks fires. -/
lemma detectECIRest_fst (pod : Pod) :
    (V2.detectECIRest pod).1 = true ↔
      strContains (strToLower pod.spec.nodeName) V2.eciNodePrefix = true
      ∨ (∃ k ∈ V2.eciAuxKeys, (getAnno pod.annos k).isSome = true) := by
  unfold V2.detectECIRest
  split_ifs with hc ha
  · simp [hc]
  · rw [List.any_eq_true] at ha
    simp [hc, ha]
  · rw [Bool.not_eq_true, List.any_eq_false] at ha
    simp only [Bool.false_eq_true, false_iff]
    rintro (h | ⟨k, hk, hsome⟩)
    · exact hc h
    · exact absurd hsome (by simpa using ha k hk)

/-- The fallback detection never captures an instance id. -/
lemma detectECIRest_snd (pod : Pod) : (V2.detectECIRest pod).2 = "" := by
  unfold V2.detectECIRest
  split_ifs <;> rfl

/-- C5: a pod is flagged as ECI-hosted iff the instance-id key holds a
non-empty value, or the lowercased node name contains the virtual-kubelet
token, or an auxiliary key is present; a non-empty instance-id value is
captured, and in every other case the captured id is empty.  A pod whose
instance-id value is the empty string, with a token-free node name and no
auxiliary key, is not flagged; a pod on node virtual-kubelet-eastus-1 is
flagged. -/
theorem C5_detectECI (pod : Pod) :
    ((V2.detectECI pod).1 = true ↔
      (∃ v, getAnno pod.annos V2.eciIdKey = some v ∧ v ≠ "")
      ∨ strContains (strToLower pod.spec.nodeName) V2.eciNodePrefix = true
      ∨ (∃ k ∈ V2.eciAuxKeys, (getAnno pod.annos k).isSome = true))
    ∧ (∀ v, getAnno pod.annos V2.eciIdKey = some v → v ≠ "" →
        V2.detectECI pod = (true, v))
    ∧ ((∀ v, getAnno pod.annos V2.eciIdKey = some v → v = "") →
        (V2.detectECI pod).2 = "")
    ∧ V2.detectECI podECIempty = (false, "")
    ∧ (V2.detectECI podECInode).1 = true := by
  refine ⟨?_, ?_, ?_, by decide, by decide⟩
  · cases hid : getAnno pod.annos V2.eciIdKey with
    | none =>
      simp only [V2.detectECI, hid, detectECIRest_fst]
      simp
    | some v =>
      by_cases hv : v = ""
      · subst hv
        simp only [V2.detectECI, hid, ne_eq, not_true_eq_false, if_false, detectECIRest_fst]
        constructor
        · exact fun h => Or.inr h
        · rintro (⟨v', hv', hne⟩ | h)
          · injection hv' with h'
            exact absurd h'.symm hne
          · exact h
      · simp only [V2.detectECI, hid, ne_eq, hv, not_false_eq_true, if_true]
        exact ⟨fun _ => Or.inl ⟨v, rfl, hv⟩, fun _ => by trivial⟩
  · intro v hv hne
    simp only [V2.detectECI, hv, ne_eq, hne, not_false_eq_true, if_true]
  · intro hall
    cases hid : getAnno pod.annos V2.eciIdKey with
    | none => simp only [V2.detectECI, hid, detectECIRest_snd]
    | some v =>
      have hv : v = "" := hall v hid
      subst hv
      simp only [V2.detectECI, hid, ne_eq, not_true_eq_false, if_false, detectECIRest_snd]

/-- C5 witness: a concrete pod with a non-empty instance-id value is
flagged and its id is captured. -/
theorem C5_detectECI_witness : V2.detectECI podECIid = (true, "eci-123") :=
  (C5_detectECI podECIid).2.1 "eci-123" (by decide) (by decide)

/- ------------------------------------------------------------- -/
/- Claim C4                                                      -/
/- ------------------------------------------------------------- -/

/-- Membership after a conditional append. -/
lemma mem_appendIfNotExists (l : List ConfigIssue) (x y : ConfigIssue) :
    x ∈ appendIfNotExists l y ↔ x ∈ l ∨ x = y := by
  unfold appendIfNotExists
  split_ifs with h
  · constructor
    · exact Or.inl
    · rintro (hx | rfl)
      · exact hx
      · exact h
  · simp

/-- With the configuration check on, the requests flag is the emptiness
test of the requests map. -/
lemma analyzeContainer_hasRequests (c : Container) (pod : Pod) :
    (analyzeContainer c pod true).hasRequests = !c.requests.isEmpty := rfl

/-- With the configuration check on, the limits flag is the emptiness
test of the limits map. -/
lemma analyzeContainer_hasLimits (c : Container) (pod : Pod) :
    (analyzeContainer c pod true).hasLimits = !c.limits.isEmpty := rfl

/-- With the configuration check on, the probe flag tests the presence of
either probe. -/
lemma analyzeContainer_hasProbe (c : Container) (pod : Pod) :
    (analyzeContainer c pod true).hasProbe
      = (c.livenessProbe.isSome || c.readinessProbe.isSome) := rfl

/-- One container-loop iteration folds the gaps of that container into
the issue list. -/
lemma containerStep_issues (pod : Pod) (st : LoopState) (c : Container) :
    (containerStep pod true st c).issues
      = List.foldl appendIfNotExists st.issues (containerGaps pod c) := by
  unfold containerStep containerGaps
  cases hR : (analyzeContainer c pod true).hasRequests <;>
    cases hL : (analyzeContainer c pod true).hasLimits <;>
      cases hP : (analyzeContainer c pod true).hasProbe <;>
        simp [hR, hL, hP]

/-- The whole container loop folds the concatenated per-container gaps. -/
lemma foldl_containerStep_issues (pod : Pod) (cs : List Container) (st : LoopState) :
    (cs.foldl (containerStep pod true) st).issues
      = List.foldl appendIfNotExists st.issues (cs.flatMap (containerGaps pod)) := by
  induction cs generalizing st with
  | nil => rfl
  | cons c rest ih =>
    rw [List.foldl_cons, ih, List.flatMap_cons, List.foldl_append, containerStep_issues]

/-- Folding conditional appends from any accumulator appends the
first-seen deduplication of the not-yet-present elements. -/
lemma foldl_appendIfNotExists_eq_dedupFS (l : List ConfigIssue) (acc : List ConfigIssue) :
    List.foldl appendIfNotExists acc l
      = acc ++ dedupFS (l.filter (fun y => decide (y ∉ acc))) := by
  induction l generalizing acc with
  | nil => simp [dedupFS]
  | cons x xs ih =>
    rw [List.foldl_cons]
    by_cases hx : x ∈ acc
    · have h1 : appendIfNotExists acc x = acc := by simp [appendIfNotExists, hx]
      have h2 : List.filter (fun y => decide (y ∉ acc)) (x :: xs)
          = List.filter (fun y => decide (y ∉ acc)) xs := by
        simp [List.filter_cons, hx]
      rw [h1, h2, ih]
    · have h1 : appendIfNotExists acc x = acc ++ [x] := by simp [appendIfNotExists, hx]
      have h2 : List.filter (fun y => decide (y ∉ acc)) (x :: xs)
          = x :: List.filter (fun y => decide (y ∉ acc)) xs := by
        simp [List.filter_cons, hx]
      rw [h1, h2, ih (acc ++ [x]), dedupFS, List.filter_filter, List.append_assoc,
        List.singleton_append]
      congr 2
      exact congrArg dedupFS (List.filter_congr (fun a _ => by
        by_cases hax : a = x <;> by_cases haacc : a ∈ acc <;> simp [hax, haacc]))

/-- Folding conditional appends from the empty accumulator is exactly the
first-seen deduplication. -/
lemma foldl_appendIfNotExists_nil (l : List ConfigIssue) :
    List.foldl appendIfNotExists [] l = dedupFS l := by
  have h := foldl_appendIfNotExists_eq_dedupFS l []
  simpa using h

/-- First-seen deduplication preserves membership. -/
lemma mem_dedupFS (l : List ConfigIssue) (x : ConfigIssue) : x ∈ dedupFS l ↔ x ∈ l := by
  induction l using dedupFS.induct with
  | case1 => simp [dedupFS]
  | case2 y ys ih =>
    rw [dedupFS]
    simp only [List.mem_cons, ih, List.mem_filter]
    by_cases hxy : x = y <;> simp [hxy]

/-- First-seen deduplication never repeats an element. -/
lemma nodup_dedupFS (l : List ConfigIssue) : (dedupFS l).Nodup := by
  induction l using dedupFS.induct with
  | case1 => simp [dedupFS]
  | case2 y ys ih =>
    rw [dedupFS, List.nodup_cons]
    refine ⟨fun hmem => ?_, ih⟩
    rw [mem_dedupFS, List.mem_filter] at hmem
    simp at hmem

/-- A container contributes the missing-requests gap iff its requests map
is empty. -/
lemma mem_containerGaps_requests (pod : Pod) (c : Container) :
    ConfigIssue.missingRequests ∈ containerGaps pod c ↔ c.requests = [] := by
  simp only [containerGaps, analyzeContainer_hasRequests, analyzeContainer_hasLimits,
    analyzeContainer_hasProbe, Bool.not_not]
  cases hE : c.requests.isEmpty with
  | true =>
    have hnil : c.requests = [] := List.isEmpty_iff.mp hE
    simp [hnil]
  | false =>
    have hne : ¬c.requests = [] := by
      intro h
      rw [h] at hE
      simp at hE
    simp only [Bool.false_eq_true, if_false, List.nil_append, hne, iff_false]
    split_ifs <;> simp

/-- A container contributes the missing-limits gap iff its limits map is
empty. -/
lemma mem_containerGaps_limits (pod : Pod) (c : Container) :
    ConfigIssue.missingLimits ∈ containerGaps pod c ↔ c.limits = [] := by
  simp only [containerGaps, analyzeContainer_hasRequests, analyzeContainer_hasLimits,
    analyzeContainer_hasProbe, Bool.not_not]
  cases hE : c.limits.isEmpty with
  | true =>
    have hnil : c.limits = [] := List.isEmpty_iff.mp hE
    simp [hnil]
  | false =>
    have hne : ¬c.limits = [] := by
      intro h
      rw [h] at hE
      simp at hE
    simp only [Bool.false_eq_true, if_false, hne, iff_false]
    rw [List.mem_append, List.mem_append]
    push_neg
    refine ⟨⟨?_, ?_⟩, ?_⟩ <;> (try split_ifs) <;> simp

/-- A container contributes the no-probe gap iff it defines neither a
liveness nor a readiness probe. -/
lemma mem_containerGaps_probe (pod : Pod) (c : Container) :
    ConfigIssue.noProbe ∈ containerGaps pod c
      ↔ c.livenessProbe = none ∧ c.readinessProbe = none := by
  have hflag : (analyzeContainer c pod true).hasProbe = false
      ↔ (c.livenessProbe = none ∧ c.readinessProbe = none) := by
    rw [analyzeContainer_hasProbe]
    cases hl : c.livenessProbe <;> cases hr : c.readinessProbe <;> simp
  simp only [containerGaps]
  constructor
  · intro hmem
    rw [List.mem_append, List.mem_append] at hmem
    rcases hmem with (h | h) | h
    · revert h
      split_ifs <;> simp
    · revert h
      split_ifs <;> simp
    · revert h
      split_ifs with hcond
      · intro _
        rw [Bool.not_eq_true'] at hcond
        exact hflag.mp hcond
      · simp
  · intro hp
    have hfalse : (analyzeContainer c pod true).hasProbe = false := hflag.mpr hp
    rw [List.mem_append]
    right
    simp [hfalse]

/-- The issue list of a single-pod analysis is the first-seen
deduplication of the per-container gaps. -/
lemma analyzeSinglePod_configIssues (now : Nat) (pod : Pod) :
    (V1.analyzeSinglePod now pod true).ConfigIssues
      = dedupFS (pod.spec.containers.flatMap (containerGaps pod)) := by
  simp only [V1.analyzeSinglePod]
  rw [foldl_containerStep_issues, foldl_appendIfNotExists_nil]

/-- C4: with configuration checking enabled, the issue list of a pod
holds each kind at most once, in first-seen order (it equals the
first-seen deduplication of the concatenated per-container gaps), and
holds a kind exactly when some container exhibits that gap; the
two-container example yields exactly missing-requests then
missing-limits. -/
theorem C4_config_issues (now : Nat) (pod : Pod) :
    ((V1.analyzeSinglePod now pod true).ConfigIssues).Nodup
    ∧ (V1.analyzeSinglePod now pod true).ConfigIssues
        = dedupFS (pod.spec.containers.flatMap (containerGaps pod))
    ∧ (ConfigIssue.missingRequests ∈ (V1.analyzeSinglePod now pod true).ConfigIssues
        ↔ ∃ c ∈ pod.spec.containers, c.requests = [])
    ∧ (ConfigIssue.missingLimits ∈ (V1.analyzeSinglePod now pod true).ConfigIssues
        ↔ ∃ c ∈ pod.spec.containers, c.limits = [])
    ∧ (ConfigIssue.noProbe ∈ (V1.analyzeSinglePod now pod true).ConfigIssues
        ↔ ∃ c ∈ pod.spec.containers, c.livenessProbe = none ∧ c.readinessProbe = none)
    ∧ (V1.analyzeSinglePod 0 podC4ex true).ConfigIssues
        = [ConfigIssue.missingRequests, ConfigIssue.missingLimits] := by
  have hkey := analyzeSinglePod_configIssues now pod
  refine ⟨hkey ▸ nodup_dedupFS _, hkey, ?_, ?_, ?_, by rfl⟩
  · rw [hkey, mem_dedupFS, List.mem_flatMap]
    exact ⟨fun ⟨c, hc, hg⟩ => ⟨c, hc, (mem_containerGaps_requests pod c).1 hg⟩,
      fun ⟨c, hc, hg⟩ => ⟨c, hc, (mem_containerGaps_requests pod c).2 hg⟩⟩
  · rw [hkey, mem_dedupFS, List.mem_flatMap]
    exact ⟨fun ⟨c, hc, hg⟩ => ⟨c, hc, (mem_containerGaps_limits pod c).1 hg⟩,
      fun ⟨c, hc, hg⟩ => ⟨c, hc, (mem_containerGaps_limits pod c).2 hg⟩⟩
  · rw [hkey, mem_dedupFS, List.mem_flatMap]
    exact ⟨fun ⟨c, hc, hg⟩ => ⟨c, hc, (mem_containerGaps_probe pod c).1 hg⟩,
      fun ⟨c, hc, hg⟩ => ⟨c, hc, (mem_containerGaps_probe pod c).2 hg⟩⟩

/- ------------------------------------------------------------- -/
/- Aggregator lemmas (claims C7 and C10)                         -/
/- ------------------------------------------------------------- -/

/-- wrap32 of zero. -/
lemma wrap32_zero : wrap32 0 = 0 := by norm_num [wrap32]

/-- Wrapping the left summand first does not change a wrapped sum. -/
lemma wrap32_wrap32_add (a b : Int) : wrap32 (wrap32 a + b) = wrap32 (a + b) := by
  simp only [wrap32]
  norm_num
  omega

/-- A value already in int32 range is its own wrap. -/
lemma wrap32_eq_self (x : Int) (h1 : -(2 ^ 31) ≤ x) (h2 : x < 2 ^ 31) : wrap32 x = x := by
  simp only [wrap32]
  norm_num
  omega

/-- Folding int32 additions from a wrapped accumulator wraps the plain
sum. -/
lemma foldl_i32add_eq (l : List Int) (a : Int) :
    List.foldl i32add (wrap32 a) l = wrap32 (a + l.sum) := by
  induction l generalizing a with
  | nil => simp
  | cons x xs ih =>
    rw [List.foldl_cons]
    have hstep : i32add (wrap32 a) x = wrap32 (a + x) := wrap32_wrap32_add a x
    rw [hstep, ih (a + x), List.sum_cons, add_assoc]

/-- Folding int32 additions from zero wraps the plain sum. -/
lemma foldl_i32add_zero (l : List Int) : List.foldl i32add 0 l = wrap32 l.sum := by
  have h := foldl_i32add_eq l 0
  rw [wrap32_zero] at h
  simpa using h

/-- The five status counts partition any pod list. -/
lemma countP_status_partition (f : Pod → PodStatus) (pods : List Pod) :
    pods.countP (fun p => f p == PodStatus.healthy)
    + pods.countP (fun p => f p == PodStatus.warning)
    + pods.countP (fun p => f p == PodStatus.error)
    + pods.countP (fun p => f p == PodStatus.pending)
    + pods.countP (fun p => f p == PodStatus.unknown) = pods.length := by
  induction pods with
  | nil => simp
  | cons p ps ih =>
    simp only [List.countP_cons, List.length_cons]
    cases h : f p <;> simp [h] <;> omega

namespace V1

/-- One aggregation step leaves the total unchanged. -/
lemma analyzeStep_TotalPods (now : Nat) (cc : Bool) (r : AnalysisResult) (p : Pod) :
    (analyzeStep now cc r p).TotalPods = r.TotalPods := by
  cases h : (analyzeSinglePod now p cc).Status <;> simp [analyzeStep, h]

/-- One aggregation step appends the analysed pod. -/
lemma analyzeStep_Pods (now : Nat) (cc : Bool) (r : AnalysisResult) (p : Pod) :
    (analyzeStep now cc r p).Pods = r.Pods ++ [analyzeSinglePod now p cc] := by
  cases h : (analyzeSinglePod now p cc).Status <;> simp [analyzeStep, h]

/-- One aggregation step bumps the healthy counter exactly on a healthy
analysis. -/
lemma analyzeStep_Healthy (now : Nat) (cc : Bool) (r : AnalysisResult) (p : Pod) :
    (analyzeStep now cc r p).HealthyPods
      = r.HealthyPods + (if (analyzeSinglePod now p cc).Status = PodStatus.healthy
          then 1 else 0) := by
  cases h : (analyzeSinglePod now p cc).Status <;> simp [analyzeStep, h]

/-- One aggregation step bumps the warning counter exactly on a warning
analysis. -/
lemma analyzeStep_Warning (now : Nat) (cc : Bool) (r : AnalysisResult) (p : Pod) :
    (analyzeStep now cc r p).WarningPods
      = r.WarningPods + (if (analyzeSinglePod now p cc).Status = PodStatus.warning
          then 1 else 0) := by
  cases h : (analyzeSinglePod now p cc).Status <;> simp [analyzeStep, h]

/-- One aggregation step bumps the error counter exactly on an error
analysis. -/
lemma analyzeStep_Error (now : Nat) (cc : Bool) (r : AnalysisResult) (p : Pod) :
    (analyzeStep now cc r p).ErrorPods
      = r.ErrorPods + (if (analyzeSinglePod now p cc).Status = PodStatus.error
          then 1 else 0) := by
  cases h : (analyzeSinglePod now p cc).Status <;> simp [analyzeStep, h]

/-- One aggregation step bumps the pending counter exactly on a pending
analysis. -/
lemma analyzeStep_Pending (now : Nat) (cc : Bool) (r : AnalysisResult) (p : Pod) :
    (analyzeStep now cc r p).PendingPods
      = r.PendingPods + (if (analyzeSinglePod now p cc).Status = PodStatus.pending
          then 1 else 0) := by
  cases h : (analyzeSinglePod now p cc).Status <;> simp [analyzeStep, h]

/-- One aggregation step adds the restarts with int32 wrapping. -/
lemma analyzeStep_TotalRestarts (now : Nat) (cc : Bool) (r : AnalysisResult) (p : Pod) :
    (analyzeStep now cc r p).TotalRestarts
      = i32add r.TotalRestarts (analyzeSinglePod now p cc).Restarts := by
  cases h : (analyzeSinglePod now p cc).Status <;> simp [analyzeStep, h]

/-- One aggregation step adds the issue-list length. -/
lemma analyzeStep_ConfigCount (now : Nat) (cc : Bool) (r : AnalysisResult) (p : Pod) :
    (analyzeStep now cc r p).ConfigIssueCount
      = r.ConfigIssueCount + (analyzeSinglePod now p cc).ConfigIssues.length := by
  cases h : (analyzeSinglePod now p cc).Status <;> simp [analyzeStep, h]

/-- The fold never changes the total. -/
lemma foldl_TotalPods (now : Nat) (cc : Bool) (pods : List Pod) (acc : AnalysisResult) :
    (pods.foldl (analyzeStep now cc) acc).TotalPods = acc.TotalPods := by
  induction pods generalizing acc with
  | nil => rfl
  | cons p ps ih => rw [List.foldl_cons, ih, analyzeStep_TotalPods]

/-- The fold appends the analysed pods in order. -/
lemma foldl_Pods (now : Nat) (cc : Bool) (pods : List Pod) (acc : AnalysisResult) :
    (pods.foldl (analyzeStep now cc) acc).Pods
      = acc.Pods ++ pods.map (fun p => analyzeSinglePod now p cc) := by
  induction pods generalizing acc with
  | nil => simp
  | cons p ps ih =>
    rw [List.foldl_cons, ih, analyzeStep_Pods, List.map_cons, List.append_assoc,
      List.singleton_append]

/-- The fold counts the healthy analyses. -/
lemma foldl_Healthy (now : Nat) (cc : Bool) (pods : List Pod) (acc : AnalysisResult) :
    (pods.foldl (analyzeStep now cc) acc).HealthyPods
      = acc.HealthyPods
        + pods.countP (fun p => (analyzeSinglePod now p cc).Status == PodStatus.healthy) := by
  induction pods generalizing acc with
  | nil => simp
  | cons p ps ih =>
    rw [List.foldl_cons, ih, analyzeStep_Healthy, List.countP_cons]
    by_cases h : (analyzeSinglePod now p cc).Status = PodStatus.healthy <;>
      simp [h] <;> omega

/-- The fold counts the warning analyses. -/
lemma foldl_Warning (now : Nat) (cc : Bool) (pods : List Pod) (acc : AnalysisResult) :
    (pods.foldl (analyzeStep now cc) acc).WarningPods
      = acc.WarningPods
        + pods.countP (fun p => (analyzeSinglePod now p cc).Status == PodStatus.warning) := by
  induction pods generalizing acc with
  | nil => simp
  | cons p ps ih =>
    rw [List.foldl_cons, ih, analyzeStep_Warning, List.countP_cons]
    by_cases h : (analyzeSinglePod now p cc).Status = PodStatus.warning <;>
      simp [h] <;> omega

/-- The fold counts the error analyses. -/
lemma foldl_Error (now : Nat) (cc : Bool) (pods : List Pod) (acc : AnalysisResult) :
    (pods.foldl (analyzeStep now cc) acc).ErrorPods
      = acc.ErrorPods
        + pods.countP (fun p => (analyzeSinglePod now p cc).Status == PodStatus.error) := by
  induction pods generalizing acc with
  | nil => simp
  | cons p ps ih =>
    rw [List.foldl_cons, ih, analyzeStep_Error, List.countP_cons]
    by_cases h : (analyzeSinglePod now p cc).Status = PodStatus.error <;>
      simp [h] <;> omega

/-- The fold counts the pending analyses. -/
lemma foldl_Pending (now : Nat) (cc : Bool) (pods : List Pod) (acc : AnalysisResult) :
    (pods.foldl (analyzeStep now cc) acc).PendingPods
      = acc.PendingPods
        + pods.countP (fun p => (analyzeSinglePod now p cc).Status == PodStatus.pending) := by
  induction pods generalizing acc with
  | nil => simp
  | cons p ps ih =>
    rw [List.foldl_cons, ih, analyzeStep_Pending, List.countP_cons]
    by_cases h : (analyzeSinglePod now p cc).Status = PodStatus.pending <;>
      simp [h] <;> omega

/-- The fold chains the int32 restart additions. -/
lemma foldl_TotalRestarts (now : Nat) (cc : Bool) (pods : List Pod) (acc : AnalysisResult) :
    (pods.foldl (analyzeStep now cc) acc).TotalRestarts
      = List.foldl i32add acc.TotalRestarts
          (pods.map (fun p => (analyzeSinglePod now p cc).Restarts)) := by
  induction pods generalizing acc with
  | nil => rfl
  | cons p ps ih =>
    rw [List.foldl_cons, ih, analyzeStep_TotalRestarts, List.map_cons, List.foldl_cons]

/-- The fold sums the issue-list lengths. -/
lemma foldl_ConfigCount (now : Nat) (cc : Bool) (pods : List Pod) (acc : AnalysisResult) :
    (pods.foldl (analyzeStep now cc) acc).ConfigIssueCount
      = acc.ConfigIssueCount
        + (pods.map (fun p => (analyzeSinglePod now p cc).ConfigIssues.length)).sum := by
  induction pods generalizing acc with
  | nil => simp
  | cons p ps ih =>
    rw [List.foldl_cons, ih, analyzeStep_ConfigCount, List.map_cons, List.sum_cons]
    omega

/-- A pod whose phase is Unknown is classified Unknown. -/
lemma status_unknown_of_phase (now : Nat) (cc : Bool) (p : Pod)
    (h : p.status.phase = "Unknown") :
    (analyzeSinglePod now p cc).Status = PodStatus.unknown := by
  simp +decide [analyzeSinglePod, determinePodStatus, h]

end V1

namespace V2

/-- One aggregation step (ECI variant) leaves the total unchanged. -/
lemma analyzeStep_TotalPods_eci (now : Nat) (cc : Bool) (r : AnalysisResult) (p : Pod) :
    (analyzeStep now cc r p).TotalPods = r.TotalPods := by
  cases h : (analyzeSinglePod now p cc).Status <;> simp [analyzeStep, h]

/-- One aggregation step (ECI variant) bumps the healthy counter exactly
on a healthy analysis. -/
lemma analyzeStep_Healthy_eci (now : Nat) (cc : Bool) (r : AnalysisResult) (p : Pod) :
    (analyzeStep now cc r p).HealthyPods
      = r.HealthyPods + (if (analyzeSinglePod now p cc).Status = PodStatus.healthy
          then 1 else 0) := by
  cases h : (analyzeSinglePod now p cc).Status <;> simp [analyzeStep, h]

/-- One aggregation step (ECI variant) bumps the warning counter exactly
on a warning analysis. -/
lemma analyzeStep_Warning_eci (now : Nat) (cc : Bool) (r : AnalysisResult) (p : Pod) :
    (analyzeStep now cc r p).WarningPods
      = r.WarningPods + (if (analyzeSinglePod now p cc).Status = PodStatus.warning
          then 1 else 0) := by
  cases h : (analyzeSinglePod now p cc).Status <;> simp [analyzeStep, h]

/-- One aggregation step (ECI variant) bumps the error counter exactly on
an error analysis. -/
lemma analyzeStep_Error_eci (now : Nat) (cc : Bool) (r : AnalysisResult) (p : Pod) :
    (analyzeStep now cc r p).ErrorPods
      = r.ErrorPods + (if (analyzeSinglePod now p cc).Status = PodStatus.error
          then 1 else 0) := by
  cases h : (analyzeSinglePod now p cc).Status <;> simp [analyzeStep, h]

/-- One aggregation step (ECI variant) bumps the pending counter exactly
on a pending analysis. -/
lemma analyzeStep_Pending_eci (now : Nat) (cc : Bool) (r : AnalysisResult) (p : Pod) :
    (analyzeStep now cc r p).PendingPods
      = r.PendingPods + (if (analyzeSinglePod now p cc).Status = PodStatus.pending
          then 1 else 0) := by
  cases h : (analyzeSinglePod now p cc).Status <;> simp [analyzeStep, h]

/-- The fold (ECI variant) never changes the total. -/
lemma foldl_TotalPods_eci (now : Nat) (cc : Bool) (pods : List Pod) (acc : AnalysisResult) :
    (pods.foldl (analyzeStep now cc) acc).TotalPods = acc.TotalPods := by
  induction pods generalizing acc with
  | nil => rfl
  | cons p ps ih => rw [List.foldl_cons, ih, analyzeStep_TotalPods_eci]

/-- The fold (ECI variant) counts the healthy analyses. -/
lemma foldl_Healthy_eci (now : Nat) (cc : Bool) (pods : List Pod) (acc : AnalysisResult) :
    (pods.foldl (analyzeStep now cc) acc).HealthyPods
      = acc.HealthyPods
        + pods.countP (fun p => (analyzeSinglePod now p cc).Status == PodStatus.healthy) := by
  induction pods generalizing acc with
  | nil => simp
  | cons p ps ih =>
    rw [List.foldl_cons, ih, analyzeStep_Healthy_eci, List.countP_cons]
    by_cases h : (analyzeSinglePod now p cc).Status = PodStatus.healthy <;>
      simp [h] <;> omega

/-- The fold (ECI variant) counts the warning analyses. -/
lemma foldl_Warning_eci (now : Nat) (cc : Bool) (pods : List Pod) (acc : AnalysisResult) :
    (pods.foldl (analyzeStep now cc) acc).WarningPods
      = acc.WarningPods
        + pods.countP (fun p => (analyzeSinglePod now p cc).Status == PodStatus.warning) := by
  induction pods generalizing acc with
  | nil => simp
  | cons p ps ih =>
    rw [List.foldl_cons, ih, analyzeStep_Warning_eci, List.countP_cons]
    by_cases h : (analyzeSinglePod now p cc).Status = PodStatus.warning <;>
      simp [h] <;> omega

/-- The fold (ECI variant) counts the error analyses. -/
lemma foldl_Error_eci (now : Nat) (cc : Bool) (pods : List Pod) (acc : AnalysisResult) :
    (pods.foldl (analyzeStep now cc) acc).ErrorPods
      = acc.ErrorPods
        + pods.countP (fun p => (analyzeSinglePod now p cc).Status == PodStatus.error) := by
  induction pods generalizing acc with
  | nil => simp
  | cons p ps ih =>
    rw [List.foldl_cons, ih, analyzeStep_Error_eci, List.countP_cons]
    by_cases h : (analyzeSinglePod now p cc).Status = PodStatus.error <;>
      simp [h] <;> omega

/-- The fold (ECI variant) counts the pending analyses. -/
lemma foldl_Pending_eci (now : Nat) (cc : Bool) (pods : List Pod) (acc : AnalysisResult) :
    (pods.foldl (analyzeStep now cc) acc).PendingPods
      = acc.PendingPods
        + pods.countP (fun p => (analyzeSinglePod now p cc).Status == PodStatus.pending) := by
  induction pods generalizing acc with
  | nil => simp
  | cons p ps ih =>
    rw [List.foldl_cons, ih, analyzeStep_Pending_eci, List.countP_cons]
    by_cases h : (analyzeSinglePod now p cc).Status = PodStatus.pending <;>
      simp [h] <;> omega

/-- A pod whose phase is Unknown is classified Unknown (ECI variant). -/
lemma status_unknown_of_phase_eci (now : Nat) (cc : Bool) (p : Pod)
    (h : p.status.phase = "Unknown") :
    (analyzeSinglePod now p cc).Status = PodStatus.unknown := by
  simp +decide [analyzeSinglePod, determinePodStatus, h]

end V2

/- ------------------------------------------------------------- -/
/- Claim C7                                                      -/
/- ------------------------------------------------------------- -/

/-- C7: the aggregator counts match the input exactly: TotalPods is the
number of pods, each status counter counts the pods classified with that
status, ConfigIssueCount sums the issue-list lengths, TotalRestarts is
the int32 sum of the per-pod restarts (the plain sum whenever it fits in
int32), and HasIssues holds iff the error, warning or config-issue count
is positive; the 2-healthy/1-warning/1-pending example has matching
counts and HasIssues true. -/
theorem C7_aggregator (now : Nat) (cc : Bool) (pods : List Pod) :
    (V1.AnalyzePods now pods cc).TotalPods = pods.length
    ∧ (V1.AnalyzePods now pods cc).Pods = pods.map (fun p => V1.analyzeSinglePod now p cc)
    ∧ (V1.AnalyzePods now pods cc).HealthyPods
        = pods.countP (fun p => (V1.analyzeSinglePod now p cc).Status == PodStatus.healthy)
    ∧ (V1.AnalyzePods now pods cc).WarningPods
        = pods.countP (fun p => (V1.analyzeSinglePod now p cc).Status == PodStatus.warning)
    ∧ (V1.AnalyzePods now pods cc).ErrorPods
        = pods.countP (fun p => (V1.analyzeSinglePod now p cc).Status == PodStatus.error)
    ∧ (V1.AnalyzePods now pods cc).PendingPods
        = pods.countP (fun p => (V1.analyzeSinglePod now p cc).Status == PodStatus.pending)
    ∧ (V1.AnalyzePods now pods cc).ConfigIssueCount
        = (pods.map (fun p => (V1.analyzeSinglePod now p cc).ConfigIssues.length)).sum
    ∧ (V1.AnalyzePods now pods cc).TotalRestarts
        = wrap32 ((pods.map (fun p => (V1.analyzeSinglePod now p cc).Restarts)).sum)
    ∧ (-(2 ^ 31) ≤ (pods.map (fun p => (V1.analyzeSinglePod now p cc).Restarts)).sum →
        (pods.map (fun p => (V1.analyzeSinglePod now p cc).Restarts)).sum < 2 ^ 31 →
        (V1.AnalyzePods now pods cc).TotalRestarts
          = (pods.map (fun p => (V1.analyzeSinglePod now p cc).Restarts)).sum)
    ∧ (V1.HasIssues (V1.AnalyzePods now pods cc) = true ↔
        0 < (V1.AnalyzePods now pods cc).ErrorPods
        ∨ 0 < (V1.AnalyzePods now pods cc).WarningPods
        ∨ 0 < (V1.AnalyzePods now pods cc).ConfigIssueCount)
    ∧ ((V1.AnalyzePods 0 examplePods false).TotalPods = 4
        ∧ (V1.AnalyzePods 0 examplePods false).HealthyPods = 2
        ∧ (V1.AnalyzePods 0 examplePods false).WarningPods = 1
        ∧ (V1.AnalyzePods 0 examplePods false).ErrorPods = 0
        ∧ (V1.AnalyzePods 0 examplePods false).PendingPods = 1
        ∧ V1.HasIssues (V1.AnalyzePods 0 examplePods false) = true) := by
  have hTR : (V1.AnalyzePods now pods cc).TotalRestarts
      = wrap32 ((pods.map (fun p => (V1.analyzeSinglePod now p cc).Restarts)).sum) := by
    simp only [V1.AnalyzePods, V1.foldl_TotalRestarts]
    exact foldl_i32add_zero _
  refine ⟨?_, ?_, ?_, ?_, ?_, ?_, ?_, hTR, ?_, ?_, by decide⟩
  · simp [V1.AnalyzePods, V1.foldl_TotalPods]
  · simp [V1.AnalyzePods, V1.foldl_Pods]
  · simp [V1.AnalyzePods, V1.foldl_Healthy]
  · simp [V1.AnalyzePods, V1.foldl_Warning]
  · simp [V1.AnalyzePods, V1.foldl_Error]
  · simp [V1.AnalyzePods, V1.foldl_Pending]
  · simp [V1.AnalyzePods, V1.foldl_ConfigCount]
  · intro h1 h2
    rw [hTR, wrap32_eq_self _ h1 h2]
  · simp only [V1.HasIssues, Bool.or_eq_true, decide_eq_true_eq]
    tauto

/-- C7 witness: on the concrete example list the restart sum fits in
int32, so TotalRestarts is the plain sum. -/
theorem C7_aggregator_witness :
    (V1.AnalyzePods 0 examplePods false).TotalRestarts
      = (examplePods.map (fun p => (V1.analyzeSinglePod 0 p false).Restarts)).sum :=
  (C7_aggregator 0 false examplePods).2.2.2.2.2.2.2.2.1 (by decide) (by decide)

/- ------------------------------------------------------------- -/
/- Claim C10                                                     -/
/- ------------------------------------------------------------- -/

/-- C10: neither aggregator variant has a counter for Unknown-status
pods: the four counters sum to TotalPods minus the number of
Unknown-classified pods, and the sum is strictly below TotalPods whenever
some phase is Unknown. -/
theorem C10_unknown_uncounted (now : Nat) (cc : Bool) (pods : List Pod) :
    ((V1.AnalyzePods now pods cc).HealthyPods + (V1.AnalyzePods now pods cc).WarningPods
      + (V1.AnalyzePods now pods cc).ErrorPods + (V1.AnalyzePods now pods cc).PendingPods
      = (V1.AnalyzePods now pods cc).TotalPods
        - pods.countP (fun p => (V1.analyzeSinglePod now p cc).Status == PodStatus.unknown))
    ∧ ((∃ p ∈ pods, p.status.phase = "Unknown") →
        (V1.AnalyzePods now pods cc).HealthyPods + (V1.AnalyzePods now pods cc).WarningPods
          + (V1.AnalyzePods now pods cc).ErrorPods + (V1.AnalyzePods now pods cc).PendingPods
          < (V1.AnalyzePods now pods cc).TotalPods)
    ∧ ((V2.AnalyzePods now pods cc).HealthyPods + (V2.AnalyzePods now pods cc).WarningPods
      + (V2.AnalyzePods now pods cc).ErrorPods + (V2.AnalyzePods now pods cc).PendingPods
      = (V2.AnalyzePods now pods cc).TotalPods
        - pods.countP (fun p => (V2.analyzeSinglePod now p cc).Status == PodStatus.unknown))
    ∧ ((∃ p ∈ pods, p.status.phase = "Unknown") →
        (V2.AnalyzePods now pods cc).HealthyPods + (V2.AnalyzePods now pods cc).WarningPods
          + (V2.AnalyzePods now pods cc).ErrorPods + (V2.AnalyzePods now pods cc).PendingPods
          < (V2.AnalyzePods now pods cc).TotalPods) := by
  have hpart1 := countP_status_partition (fun p => (V1.analyzeSinglePod now p cc).Status) pods
  have hpart2 := countP_status_partition (fun p => (V2.analyzeSinglePod now p cc).Status) pods
  have h1H : (V1.AnalyzePods now pods cc).HealthyPods
      = pods.countP (fun p => (V1.analyzeSinglePod now p cc).Status == PodStatus.healthy) := by
    simp [V1.AnalyzePods, V1.foldl_Healthy]
  have h1W : (V1.AnalyzePods now pods cc).WarningPods
      = pods.countP (fun p => (V1.analyzeSinglePod now p cc).Status == PodStatus.warning) := by
    simp [V1.AnalyzePods, V1.foldl_Warning]
  have h1E : (V1.AnalyzePods now pods cc).ErrorPods
      = pods.countP (fun p => (V1.analyzeSinglePod now p cc).Status == PodStatus.error) := by
    simp [V1.AnalyzePods, V1.foldl_Error]
  have h1P : (V1.AnalyzePods now pods cc).PendingPods
      = pods.countP (fun p => (V1.analyzeSinglePod now p cc).Status == PodStatus.pending) := by
    simp [V1.AnalyzePods, V1.foldl_Pending]
  have h1T : (V1.AnalyzePods now pods cc).TotalPods = pods.length := by
    simp [V1.AnalyzePods, V1.foldl_TotalPods]
  have h2H : (V2.AnalyzePods now pods cc).HealthyPods
      = pods.countP (fun p => (V2.analyzeSinglePod now p cc).Status == PodStatus.healthy) := by
    simp [V2.AnalyzePods, V2.foldl_Healthy_eci]
  have h2W : (V2.AnalyzePods now pods cc).WarningPods
      = pods.countP (fun p => (V2.analyzeSinglePod now p cc).Status == PodStatus.warning) := by
    simp [V2.AnalyzePods, V2.foldl_Warning_eci]
  have h2E : (V2.AnalyzePods now pods cc).ErrorPods
      = pods.countP (fun p => (V2.analyzeSinglePod now p cc).Status == PodStatus.error) := by
    simp [V2.AnalyzePods, V2.foldl_Error_eci]
  have h2P : (V2.AnalyzePods now pods cc).PendingPods
      = pods.countP (fun p => (V2.analyzeSinglePod now p cc).Status == PodStatus.pending) := by
    simp [V2.AnalyzePods, V2.foldl_Pending_eci]
  have h2T : (V2.AnalyzePods now pods cc).TotalPods = pods.length := by
    simp [V2.AnalyzePods, V2.foldl_TotalPods_eci]
  refine ⟨?_, ?_, ?_, ?_⟩
  · rw [h1H, h1W, h1E, h1P, h1T]
    omega
  · rintro ⟨p, hp, hph⟩
    have hcu : 0 < pods.countP
        (fun p => (V1.analyzeSinglePod now p cc).Status == PodStatus.unknown) := by
      rw [List.countP_pos_iff]
      exact ⟨p, hp, by simp [V1.status_unknown_of_phase now cc p hph]⟩
    rw [h1H, h1W, h1E, h1P, h1T]
    omega
  · rw [h2H, h2W, h2E, h2P, h2T]
    omega
  · rintro ⟨p, hp, hph⟩
    have hcu : 0 < pods.countP
        (fun p => (V2.analyzeSinglePod now p cc).Status == PodStatus.unknown) := by
      rw [List.countP_pos_iff]
      exact ⟨p, hp, by simp [V2.status_unknown_of_phase_eci now cc p hph]⟩
    rw [h2H, h2W, h2E, h2P, h2T]
    omega

/-- C10 witness: a list holding one Unknown-phase pod: the four counters
sum strictly below the total in both variants. -/
theorem C10_unknown_uncounted_witness :
    ((V1.AnalyzePods 0 [podUnknownEx] false).HealthyPods
      + (V1.AnalyzePods 0 [podUnknownEx] false).WarningPods
      + (V1.AnalyzePods 0 [podUnknownEx] false).ErrorPods
      + (V1.AnalyzePods 0 [podUnknownEx] false).PendingPods
      < (V1.AnalyzePods 0 [podUnknownEx] false).TotalPods)
    ∧ ((V2.AnalyzePods 0 [podUnknownEx] false).HealthyPods
      + (V2.AnalyzePods 0 [podUnknownEx] false).WarningPods
      + (V2.AnalyzePods 0 [podUnknownEx] false).ErrorPods
      + (V2.AnalyzePods 0 [podUnknownEx] false).PendingPods
      < (V2.AnalyzePods 0 [podUnknownEx] false).TotalPods) :=
  ⟨(C10_unknown_uncounted 0 false [podUnknownEx]).2.1
      ⟨podUnknownEx, by decide, by decide⟩,
   (C10_unknown_uncounted 0 false [podUnknownEx]).2.2.2
      ⟨podUnknownEx, by decide, by decide⟩⟩

/- ------------------------------------------------------------- -/
/- Claim C9                                                      -/
/- ------------------------------------------------------------- -/

/-- A row line occurs in the per-pod blocks exactly for the listed pods. -/
lemma row_mem_blocks (pods : List V2.PodAnalysis) (pod : V2.PodAnalysis) :
    (OutLine.row pod
        ∈ pods.flatMap (fun q => OutLine.row q :: q.ConfigIssues.map OutLine.issueDetail))
      ↔ pod ∈ pods := by
  rw [List.mem_flatMap]
  constructor
  · rintro ⟨q, hq, hmem⟩
    rcases List.mem_cons.mp hmem with heq | hdet
    · cases heq
      exact hq
    · rcases List.mem_map.mp hdet with ⟨i, _, habs⟩
      cases habs
  · intro hp
    exact ⟨pod, hp, List.mem_cons_self _ _⟩

/-- The show-filter predicate of the printer, in propositional form. -/
lemma printer_pred_iff (showAll : Bool) (pod : V2.PodAnalysis) :
    ((showAll || !(pod.Status == PodStatus.healthy)
        || decide (pod.ConfigIssues.length > 0)) = true)
      ↔ (showAll = true ∨ pod.Status ≠ PodStatus.healthy ∨ pod.ConfigIssues ≠ []) := by
  simp [List.length_pos]
  tauto

/-- C9: the table printer emits a row for a pod exactly when show-all is
requested, or the pod is not healthy, or it carries configuration issues;
when no pod qualifies the output is the all-healthy message and a blank
line, with no rows. -/
theorem C9_table_filter (result : V2.AnalysisResult) (showAll showNs : Bool) :
    (∀ pod : V2.PodAnalysis,
      OutLine.row pod ∈ printPodTable result showAll showNs ↔
        pod ∈ result.Pods
        ∧ (showAll = true ∨ pod.Status ≠ PodStatus.healthy ∨ pod.ConfigIssues ≠ []))
    ∧ (printPodTable result showAll showNs = [OutLine.healthyMsg, OutLine.blank] ↔
        ∀ pod ∈ result.Pods,
          ¬(showAll = true ∨ pod.Status ≠ PodStatus.healthy ∨ pod.ConfigIssues ≠ [])) := by
  simp only [printPodTable]
  by_cases hlen : (result.Pods.filter
      (fun pod => showAll || !(pod.Status == PodStatus.healthy)
        || decide (pod.ConfigIssues.length > 0))).length = 0
  · have hall := List.filter_eq_nil_iff.mp (List.length_eq_zero.mp hlen)
    rw [if_pos hlen]
    constructor
    · intro pod
      constructor
      · intro hmem
        simp at hmem
      · rintro ⟨hp, hcond⟩
        exact absurd ((printer_pred_iff showAll pod).mpr hcond) (hall pod hp)
    · exact ⟨fun _ pod hp hcond =>
        (hall pod hp) ((printer_pred_iff showAll pod).mpr hcond), fun _ => rfl⟩
  · rw [if_neg hlen]
    have hne : (result.Pods.filter
        (fun pod => showAll || !(pod.Status == PodStatus.healthy)
          || decide (pod.ConfigIssues.length > 0))) ≠ [] := by
      intro h
      exact hlen (by rw [h]; rfl)
    constructor
    · intro pod
      rw [List.mem_append, List.mem_append, row_mem_blocks, List.mem_filter]
      simp [printer_pred_iff showAll pod]
    · constructor
      · intro habs
        have hmem : OutLine.header ∈ [OutLine.healthyMsg, OutLine.blank] := by
          rw [← habs]
          simp
        simp at hmem
      · intro hall
        exfalso
        apply hne
        rw [List.filter_eq_nil_iff]
        intro pod hp hcond
        exact (hall pod hp) ((printer_pred_iff showAll pod).mp hcond)

/-- C4 witness: the two-container example evaluated through the theorem:
exactly missing-requests then missing-limits. -/
theorem C4_config_issues_witness :
    (V1.analyzeSinglePod 0 podC4ex true).ConfigIssues
      = [ConfigIssue.missingRequests, ConfigIssue.missingLimits] :=
  (C4_config_issues 0 podC4ex).2.2.2.2.2

/-- C9 witness: a result holding one healthy pod without issues prints
the all-healthy message and a blank line when show-all is off. -/
theorem C9_table_filter_witness :
    printPodTable (V2.AnalyzePods 0 [podHealthyEx "h1"] false) false false
      = [OutLine.healthyMsg, OutLine.blank] :=
  (C9_table_filter (V2.AnalyzePods 0 [podHealthyEx "h1"] false) false false).2.mpr
    (by decide)
